import Mathlib

/-!
Verification of the Wedding-RSVP application.

This file gives a shallow embedding, in Lean 4, of the core logic of the
`wedding_rsvp` Python package: the RSVP-code generator (`database.py`), the
registration record and its timestamp defaults (`database.py`), the form
validation rules (`forms.py`), the create/update workflow with its
compensating rollback (`views.py`), the per-request deadline flag (`app.py`)
and the CSV export (`export.py`).  External collaborators (the random source,
the persisted-record lookups, the email format checker, the mail transport)
are modelled as explicit oracle parameters.  Theorems below settle the frozen
claims about this logic.
-/

namespace WeddingRSVP

/-! ## Code generator (`database.py`, `generate_rsvp_code`) -/

/-- `string.ascii_uppercase`: the 26 uppercase ASCII letters. -/
def asciiUppercase : List Char := "ABCDEFGHIJKLMNOPQRSTUVWXYZ".toList

/-- `RSVP.RSVP_CODE_LENGTH`. -/
def RSVP_CODE_LENGTH : Nat := 4

/-- `generate_rsvp_code` from `database.py`.  The cryptographically strong
random source (`random.SystemRandom().choice(string.ascii_uppercase)`) is
modelled as the stream of characters it would return; the persisted-records
lookup (`RSVP.get_by_rsvp_code(...) is not None`) is the oracle `existsCode`.
Codes are modelled as `List Char`; `acc` is the `rsvp_code` accumulator that
the `while` loop builds up (the loop runs while `len(rsvp_code) < 4`; a
character already in the accumulator is skipped; when the candidate reaches
length 4 and collides with a persisted code, the accumulator is reset to the
empty string).  Returns `none` only when the modelled random stream is
exhausted. -/
def generate_rsvp_code (existsCode : List Char → Bool) :
    List Char → List Char → Option (List Char)
  | [], _ => none
  | c :: cs, acc =>
    if acc.contains c then
      generate_rsvp_code existsCode cs acc
    else
      let acc2 := acc ++ [c]
      if acc2.length = RSVP_CODE_LENGTH then
        if existsCode acc2 then generate_rsvp_code existsCode cs []
        else some acc2
      else generate_rsvp_code existsCode cs acc2

lemma generate_rsvp_code_invariant (existsCode : List Char → Bool) :
    ∀ (stream : List Char), (∀ c ∈ stream, c ∈ asciiUppercase) →
      ∀ (acc : List Char), (∀ c ∈ acc, c ∈ asciiUppercase) → acc.Nodup →
        acc.length < RSVP_CODE_LENGTH →
        ∀ code, generate_rsvp_code existsCode stream acc = some code →
          code.length = RSVP_CODE_LENGTH ∧ (∀ c ∈ code, c ∈ asciiUppercase) ∧
            code.Nodup ∧ existsCode code = false := by
  intro stream
  induction stream with
  | nil =>
    intro _ acc _ _ _ code hcode
    simp [generate_rsvp_code] at hcode
  | cons c cs ih =>
    intro hstream acc hacc hnodup hlen code hcode
    have hc : c ∈ asciiUppercase := hstream c (List.mem_cons_self c cs)
    have hcs : ∀ x ∈ cs, x ∈ asciiUppercase := fun x hx =>
      hstream x (List.mem_cons_of_mem c hx)
    rw [generate_rsvp_code] at hcode
    by_cases hmem : acc.contains c
    · rw [if_pos hmem] at hcode
      exact ih hcs acc hacc hnodup hlen code hcode
    · rw [if_neg hmem] at hcode
      simp only [] at hcode
      have hacc2 : ∀ x ∈ acc ++ [c], x ∈ asciiUppercase := by
        intro x hx
        rcases List.mem_append.mp hx with h | h
        · exact hacc x h
        · simp at h; subst h; exact hc
      have hcnot : c ∉ acc := by simpa using hmem
      have hnodup2 : (acc ++ [c]).Nodup := by
        rw [List.nodup_append]
        refine ⟨hnodup, List.nodup_singleton c, ?_⟩
        intro x hx hxc
        simp at hxc
        subst hxc
        exact hcnot hx
      by_cases hfull : (acc ++ [c]).length = RSVP_CODE_LENGTH
      · rw [if_pos hfull] at hcode
        by_cases hex : existsCode (acc ++ [c])
        · rw [if_pos hex] at hcode
          exact ih hcs [] (by simp) List.nodup_nil (by simp [RSVP_CODE_LENGTH]) code hcode
        · rw [if_neg hex] at hcode
          have : acc ++ [c] = code := by
            simpa using hcode
          subst this
          exact ⟨hfull, hacc2, hnodup2, by simpa using hex⟩
      · rw [if_neg hfull] at hcode
        have hlen2 : (acc ++ [c]).length < RSVP_CODE_LENGTH := by
          have : (acc ++ [c]).length = acc.length + 1 := by simp
          omega
        exact ih hcs (acc ++ [c]) hacc2 hnodup2 hlen2 code hcode

/-- C1: every code returned by `generate_rsvp_code` has length exactly 4,
consists only of uppercase ASCII letters, has no repeated character, and is
not equal to any code persisted at the moment the generator returns (the
persisted-records lookup being the oracle `existsCode`); moreover, on a
uniqueness collision the generator restarts building the candidate from the
empty string. -/
theorem C1_generate_rsvp_code_spec (existsCode : List Char → Bool)
    (stream code : List Char)
    (hstream : ∀ c ∈ stream, c ∈ asciiUppercase)
    (hgen : generate_rsvp_code existsCode stream [] = some code) :
    (code.length = 4 ∧ (∀ c ∈ code, c ∈ asciiUppercase) ∧ code.Nodup ∧
        existsCode code = false) ∧
      ∀ (c : Char) (cs acc : List Char), acc.contains c = false →
        (acc ++ [c]).length = RSVP_CODE_LENGTH → existsCode (acc ++ [c]) = true →
        generate_rsvp_code existsCode (c :: cs) acc =
          generate_rsvp_code existsCode cs [] := by
  constructor
  · have := generate_rsvp_code_invariant existsCode stream hstream [] (by simp)
      List.nodup_nil (by simp [RSVP_CODE_LENGTH]) code hgen
    simpa [RSVP_CODE_LENGTH] using this
  · intro c cs acc hmem hfull hex
    rw [generate_rsvp_code]
    simp only [hmem, Bool.false_eq_true, if_false, hfull, if_pos, hex, if_true]

/-- Witness for C1 at a concrete input: the random stream "AABCD" (with one
repeated draw that is skipped) and an empty persisted store. -/
theorem C1_generate_rsvp_code_spec_witness :
    (∀ c ∈ ("AABCD".toList), c ∈ asciiUppercase) ∧
      generate_rsvp_code (fun _ => false) "AABCD".toList [] = some "ABCD".toList ∧
      (("ABCD".toList.length = 4 ∧ (∀ c ∈ "ABCD".toList, c ∈ asciiUppercase) ∧
          "ABCD".toList.Nodup ∧ (fun (_ : List Char) => false) "ABCD".toList = false) ∧
        ∀ (c : Char) (cs acc : List Char), acc.contains c = false →
          (acc ++ [c]).length = RSVP_CODE_LENGTH →
          (fun (_ : List Char) => false) (acc ++ [c]) = true →
          generate_rsvp_code (fun _ => false) (c :: cs) acc =
            generate_rsvp_code (fun _ => false) cs []) :=
  ⟨by decide, by decide,
    C1_generate_rsvp_code_spec (fun _ => false) "AABCD".toList "ABCD".toList
      (by decide) (by decide)⟩

/-! ## Data model (`database.py`, class `RSVP`)

Timestamps are modelled as natural numbers (clock ticks); `guest_email` and
the partner diet flags are nullable columns, modelled with `Option`. -/

/-- One row of the `rsvp` table, with the columns of `database.py`. -/
structure RSVPRec where
  id : Nat
  rsvp_code : String
  guest_first_name : String
  guest_last_name : String
  guest_present : Bool
  guest_present_ceremony : Bool
  guest_present_reception : Bool
  guest_present_dinner : Bool
  guest_email : Option String
  guest_diet_meat : Bool
  guest_diet_fish : Bool
  guest_diet_vega : Bool
  with_partner : Bool
  partner_first_name : String
  partner_last_name : String
  partner_diet_meat : Option Bool
  partner_diet_fish : Option Bool
  partner_diet_vega : Option Bool
  remarks : String
  created_at : Nat
  updated_at : Nat
deriving Repr, DecidableEq

/-- A fresh `RSVP()` instance as it is inserted, carrying the column defaults
of `database.py`: `partner_first_name`/`partner_last_name` default to `""`,
the partner diet flags default to `None`, `remarks` defaults to `""`,
`created_at` defaults to `local_now` and `updated_at` defaults to
`from_column(created_at)`, i.e. it is copied from `created_at` at insert.
The `id` (autoincrement primary key) and `rsvp_code` (default
`generate_rsvp_code`) are supplied by the caller; the not-null guest columns
carry their to-be-populated values via `populate_obj` below, so they start at
arbitrary placeholder defaults here. -/
def RSVP_new (id : Nat) (code : String) (now : Nat) : RSVPRec :=
  { id := id
    rsvp_code := code
    guest_first_name := ""
    guest_last_name := ""
    guest_present := false
    guest_present_ceremony := false
    guest_present_reception := false
    guest_present_dinner := false
    guest_email := none
    guest_diet_meat := false
    guest_diet_fish := false
    guest_diet_vega := false
    with_partner := false
    partner_first_name := ""
    partner_last_name := ""
    partner_diet_meat := none
    partner_diet_fish := none
    partner_diet_vega := none
    remarks := ""
    created_at := now
    updated_at := now }

/-- The `onupdate=local_now` behaviour of the `updated_at` column: every
mutation flushed to the database stamps `updated_at` with the current time.
No other column has an `onupdate`, so nothing else changes. -/
def onupdate_updated_at (now : Nat) (r : RSVPRec) : RSVPRec :=
  { r with updated_at := now }

/-! ## Forms (`forms.py`) -/

/-- The whitespace characters stripped by Python's `str.strip()` (the ASCII
ones: space, tab, newline, carriage return, form feed, vertical tab). -/
def isStripSpace (c : Char) : Bool :=
  c = ' ' || c = '\t' || c = '\n' || c = '\r' || c = '\x0c' || c = '\x0b'

/-- Python `str.strip()`: removes leading and trailing whitespace. -/
def py_strip (s : String) : String :=
  ⟨((s.data.dropWhile isStripSpace).reverse.dropWhile isStripSpace).reverse⟩

/-- Python `str.lower()` (on the ASCII letters used here). -/
def py_lower (s : String) : String :=
  ⟨s.data.map Char.toLower⟩

/-- Python `len()` on a string: the number of characters. -/
def py_len (s : String) : Nat :=
  s.data.length

/-- `strip_value` filter: strips surrounding whitespace. -/
def strip_value (s : String) : String := py_strip s

/-- `value_or_none` filter: a falsy (empty) string becomes `None`. -/
def value_or_none (s : String) : Option String :=
  if s = "" then none else some s

/-- `lower` filter: lowercases the value when it supports it (`None` has no
`lower`, so it passes through unchanged). -/
def lower (s : Option String) : Option String :=
  s.map (fun t => py_lower t)

/-- The `guest_email` filter chain `[strip_value, value_or_none, lower]`,
applied in order. -/
def normalizeEmail (raw : String) : Option String :=
  lower (value_or_none (strip_value raw))

/-- Raw submitted form data, one entry per field of `RSVPForm`.  String
fields hold the raw submitted text (filters are applied by the validation
and population functions); `BooleanField`s hold the submitted checkbox state
and the `guest_present` `RadioField` holds its coerced boolean. -/
structure FormInput where
  guest_first_name : String
  guest_last_name : String
  guest_present : Bool
  guest_present_ceremony : Bool
  guest_present_reception : Bool
  guest_present_dinner : Bool
  guest_email : String
  guest_diet_meat : Bool
  guest_diet_fish : Bool
  guest_diet_vega : Bool
  partner_first_name : String
  partner_last_name : String
  partner_diet_meat : Bool
  partner_diet_fish : Bool
  partner_diet_vega : Bool
  remarks : String
deriving Repr, DecidableEq

/-- Error message of `validate_guest_present_dinner`. -/
def programItemMsg : String := "Je dient je aan te melden voor minimaal één onderdeel."

/-- Error message of `validate_guest_diet_vega` and `validate_partner_diet_vega`. -/
def dietMsg : String := "Je dient minimaal één dieetwens in te vullen."

/-- Error message of `validate_guest_email`. -/
def uniqueEmailMsg : String :=
  "Je hebt je al met dit e-mailadres aangemeld. Controleer je inbox voor de link om je aanmelding aan te passen."

/-- Stand-in for the wtforms `InputRequired` default message. -/
def requiredMsg : String := "This field is required."

/-- Stand-in for the wtforms `Length` default message. -/
def lengthMsg : String := "Field cannot be longer than allowed."

/-- Stand-in for the wtforms `Email` default message. -/
def emailFormatMsg : String := "Invalid email address."

/-- Validator chain `[InputRequired(), Length(max=maxLen)]` on a `StringField`
with the `strip_value` filter.  `InputRequired` fails (and stops the chain)
exactly when the raw submitted value is the empty string; `Length` checks the
filtered data. -/
def requiredAndLength (fieldName : String) (raw : String) (maxLen : Nat) :
    List (String × String) :=
  if raw = "" then [(fieldName, requiredMsg)]
  else if py_len (py_strip raw) > maxLen then [(fieldName, lengthMsg)]
  else []

/-- Validator chain `[RequiredIfTruthy("guest_present"), Length(max=maxLen)]`:
when `guest_present` is truthy this behaves as `InputRequired`; otherwise it
behaves as `InputOptional`, which stops the chain without error when the
stripped raw value is empty. -/
def requiredIfPresentAndLength (guest_present : Bool) (fieldName : String)
    (raw : String) (maxLen : Nat) : List (String × String) :=
  if guest_present then requiredAndLength fieldName raw maxLen
  else if py_strip raw = "" then []
  else if py_len (py_strip raw) > maxLen then [(fieldName, lengthMsg)]
  else []

/-- Validator chain `[InputOptional(), Length(max=maxLen)]` of `remarks`. -/
def optionalLength (fieldName : String) (raw : String) (maxLen : Nat) :
    List (String × String) :=
  if py_strip raw = "" then []
  else if py_len (py_strip raw) > maxLen then [(fieldName, lengthMsg)]
  else []

/-- Inline validator `RSVPForm.validate_guest_present_dinner`: when the guest
is present but no programme item (ceremony/reception/dinner) is selected, an
error is attached to the `guest_present_dinner` field. -/
def validate_guest_present_dinner (fi : FormInput) : List (String × String) :=
  let any_program_item_present :=
    fi.guest_present_ceremony || fi.guest_present_reception || fi.guest_present_dinner
  if fi.guest_present = true && any_program_item_present = false then
    [("guest_present_dinner", programItemMsg)]
  else []

/-- Inline validator `RSVPForm.validate_guest_diet_vega`: when the guest
attends the dinner but no guest diet flag is set, an error is attached to the
`guest_diet_vega` field. -/
def validate_guest_diet_vega (fi : FormInput) : List (String × String) :=
  let any_diet_present := fi.guest_diet_meat || fi.guest_diet_fish || fi.guest_diet_vega
  if fi.guest_present_dinner = true && any_diet_present = false then
    [("guest_diet_vega", dietMsg)]
  else []

/-- Inline validator `RSVPForm.validate_partner_diet_vega`: when the guest
attends the dinner but no partner diet flag is set, an error is attached to
the `partner_diet_vega` field.  (Only runs when the partner fields exist on
the form, see `validateForm`.) -/
def validate_partner_diet_vega (fi : FormInput) : List (String × String) :=
  let any_diet_present := fi.partner_diet_meat || fi.partner_diet_fish || fi.partner_diet_vega
  if fi.guest_present_dinner = true && any_diet_present = false then
    [("partner_diet_vega", dietMsg)]
  else []

/-- Inline validator `RSVPForm.validate_guest_email`: the uniqueness check
against the persisted records (oracle `existsEmail`, i.e.
`RSVP.get_by_guest_email(...) is not None`).  It is skipped when the filtered
data is `None` or equal to the field's `object_data` (the value already
stored on the record the form was built from; `none` on a create form). -/
def validate_guest_email (existsEmail : String → Bool) (objEmail : Option String)
    (data : Option String) : List (String × String) :=
  match data with
  | none => []
  | some e =>
    if some e ≠ objEmail ∧ existsEmail e = true then [("guest_email", uniqueEmailMsg)]
    else []

/-- The full validator chain of the `guest_email` field:
`RequiredIfTruthy("guest_present")`, `Length(max=254)`, `Email()` (the format
check of the external wtforms `Email` validator is the oracle
`emailFormatOk`), then the inline uniqueness validator.  A failing
`InputRequired` or a satisfied `InputOptional` raises `StopValidation`, which
cuts off the rest of the chain. -/
def guest_email_chain_rest (existsEmail emailFormatOk : String → Bool)
    (objEmail : Option String) (data : Option String) : List (String × String) :=
  (match data with
   | some e =>
     (if py_len e > 254 then [("guest_email", lengthMsg)] else []) ++
       (if emailFormatOk e then [] else [("guest_email", emailFormatMsg)])
   | none => []) ++
    validate_guest_email existsEmail objEmail data

def guest_email_errors (existsEmail emailFormatOk : String → Bool)
    (guest_present : Bool) (objEmail : Option String) (raw : String) :
    List (String × String) :=
  if guest_present then
    if raw = "" then [("guest_email", requiredMsg)]
    else guest_email_chain_rest existsEmail emailFormatOk objEmail (normalizeEmail raw)
  else
    if py_strip raw = "" then []
    else guest_email_chain_rest existsEmail emailFormatOk objEmail (normalizeEmail raw)

/-- `RSVPForm.validate()` (as driven by `create_rsvp_form`): runs every
field's validator chain and the inline validators and collects the
field-scoped errors.  When `with_partner` is false, `create_rsvp_form`
deletes the five partner fields from the form, so none of their validators
run.  `objEmail` is the `object_data` of the `guest_email` field (`none` on a
create form, the stored email on an edit form). -/
def validateForm (with_partner : Bool) (existsEmail emailFormatOk : String → Bool)
    (objEmail : Option String) (fi : FormInput) : List (String × String) :=
  requiredAndLength "guest_first_name" fi.guest_first_name 50 ++
    requiredAndLength "guest_last_name" fi.guest_last_name 50 ++
    validate_guest_present_dinner fi ++
    guest_email_errors existsEmail emailFormatOk fi.guest_present objEmail fi.guest_email ++
    validate_guest_diet_vega fi ++
    (if with_partner then
      requiredIfPresentAndLength fi.guest_present "partner_first_name" fi.partner_first_name 50 ++
        requiredIfPresentAndLength fi.guest_present "partner_last_name" fi.partner_last_name 50 ++
        validate_partner_diet_vega fi
    else []) ++
    optionalLength "remarks" fi.remarks 250

/-- `form.populate_obj(rsvp_instance)`: writes the filtered data of every
field present on the form onto the record.  When `with_partner` is false the
five partner fields were deleted from the form by `create_rsvp_form`, so the
corresponding attributes of the record are left untouched.  No other
attribute of the record is written. -/
def populate_obj (with_partner : Bool) (fi : FormInput) (r : RSVPRec) : RSVPRec :=
  { r with
    guest_first_name := py_strip fi.guest_first_name
    guest_last_name := py_strip fi.guest_last_name
    guest_present := fi.guest_present
    guest_present_ceremony := fi.guest_present_ceremony
    guest_present_reception := fi.guest_present_reception
    guest_present_dinner := fi.guest_present_dinner
    guest_email := normalizeEmail fi.guest_email
    guest_diet_meat := fi.guest_diet_meat
    guest_diet_fish := fi.guest_diet_fish
    guest_diet_vega := fi.guest_diet_vega
    partner_first_name :=
      if with_partner then py_strip fi.partner_first_name else r.partner_first_name
    partner_last_name :=
      if with_partner then py_strip fi.partner_last_name else r.partner_last_name
    partner_diet_meat :=
      if with_partner then some fi.partner_diet_meat else r.partner_diet_meat
    partner_diet_fish :=
      if with_partner then some fi.partner_diet_fish else r.partner_diet_fish
    partner_diet_vega :=
      if with_partner then some fi.partner_diet_vega else r.partner_diet_vega
    remarks := py_strip fi.remarks }

/-! ## Request context (`app.py`, `build_request_context`) and views
(`views.py`) -/

/-- `build_request_context` from `app.py`: `g.deadline_passed` is computed
once per request as `date.today() >= app.config["RSVP_DEADLINE"]` when the
deadline is configured, and `False` otherwise.  Dates are modelled as day
ordinals. -/
def build_request_context (today : Nat) (rsvp_deadline : Option Nat) : Bool :=
  match rsvp_deadline with
  | some deadline => decide (deadline ≤ today)
  | none => false

/-- `http_auth.current_user() is UserType.ADMIN or not g.deadline_passed`:
the form-enabled flag computed in `register_rsvp` and `manage_rsvp`. -/
def form_enabled (isAdmin deadline_passed : Bool) : Bool :=
  isAdmin || !deadline_passed

/-- Outcome of a view function: re-render the form over an unchanged store,
redirect to the management page for a code, or propagate an exception (which
the framework turns into a server error page).  Each outcome carries the
state of the persisted store after the request. -/
inductive ViewResult where
  | render (store : List RSVPRec)
  | redirect (store : List RSVPRec) (code : String)
  | serverError (store : List RSVPRec)
deriving Repr, DecidableEq

/-- `register_rsvp` from `views.py` (the POST path).  The store is the list
of persisted records; `freshId` is the id the autoincrement primary key
assigns, `freshCode` the code `generate_rsvp_code` produced and `now` the
insert timestamp.  `emailOk` is the oracle for whether
`send_confirmation_email` returns normally (`false`: it raises).  When the
form is disabled or validation fails, the view only re-renders: nothing is
persisted.  Otherwise the record is built by `populate_obj` on a fresh
instance, `with_partner` is assigned, and the record is added and committed;
if the final `guest_present` is true and the notification raises, the record
is deleted (by primary key) and the deletion committed, then the exception
is re-raised; otherwise the view redirects to `manage_rsvp` for the new
record's code.  The record built by the create path is `create_instance`:
`rsvp_instance = RSVP()`, then `form.populate_obj(rsvp_instance)`, then
`rsvp_instance.with_partner = with_partner`. -/
def create_instance (with_partner : Bool) (fi : FormInput) (freshId : Nat)
    (freshCode : String) (now : Nat) : RSVPRec :=
  { populate_obj with_partner fi (RSVP_new freshId freshCode now) with
      with_partner := with_partner }

def register_rsvp (formEnabled with_partner : Bool)
    (existsEmail emailFormatOk : String → Bool) (fi : FormInput)
    (store : List RSVPRec) (freshId : Nat) (freshCode : String) (now : Nat)
    (emailOk : Bool) : ViewResult :=
  if formEnabled &&
      (validateForm with_partner existsEmail emailFormatOk none fi).isEmpty then
    let rsvp_instance := create_instance with_partner fi freshId freshCode now
    let store1 := store ++ [rsvp_instance]
    if rsvp_instance.guest_present then
      if emailOk then
        ViewResult.redirect store1 rsvp_instance.rsvp_code
      else
        ViewResult.serverError (store1.filter (fun r => r.id != rsvp_instance.id))
    else
      ViewResult.redirect store1 rsvp_instance.rsvp_code
  else
    ViewResult.render store

/-- `manage_rsvp` from `views.py` (the POST path), for a record `r` already
looked up by its code.  `with_partner` is taken from the record; the form is
built from the record, so the `guest_email` field's `object_data` is
`r.guest_email`.  On successful validation the payload is applied with
`populate_obj`, the commit stamps `updated_at` via the `onupdate` hook, and
the view redirects to the management page for the record's code. -/
def manage_rsvp (formEnabled : Bool) (existsEmail emailFormatOk : String → Bool)
    (fi : FormInput) (store : List RSVPRec) (r : RSVPRec) (now : Nat) : ViewResult :=
  let with_partner := r.with_partner
  if formEnabled &&
      (validateForm with_partner existsEmail emailFormatOk r.guest_email fi).isEmpty then
    let u := onupdate_updated_at now (populate_obj with_partner fi r)
    ViewResult.redirect (store.map (fun x => if x.id = r.id then u else x)) u.rsvp_code
  else
    ViewResult.render store

/-! ## Export (`export.py`, `export_rsvps_as_csv`) -/

/-- Rendering of a boolean attribute in a CSV cell:
`"Ja" if field_value is True else "Nee"`. -/
def boolCell (b : Bool) : String := if b then "Ja" else "Nee"

/-- Rendering of a nullable string attribute: `None` becomes the empty
string. -/
def optStrCell : Option String → String
  | none => ""
  | some s => s

/-- Rendering of a nullable boolean attribute: a present boolean renders as
`boolCell`, `None` renders as the empty string. -/
def optBoolCell : Option Bool → String
  | none => ""
  | some b => boolCell b

/-- The fixed header row: the values of `field_to_header_mapping`, in field
order. -/
def headerRow : List String :=
  ["Code", "Voornaam", "Achternaam", "Aanwezig", "Aanwezig: ceremonie",
   "Aanwezig: receptie", "Aanwezig: diner", "E-mail", "Dieetwensen: Vlees",
   "Dieetwensen: Vis", "Dieetwensen: Vegetarisch", "Met partner",
   "Partner voornaam", "Partner achternaam", "Partner dieetwensen: Vlees",
   "Partner dieetwensen: Vis", "Partner dieetwensen: Vegetarisch",
   "Opmerkingen", "Registratiedatum", "Laatst aangepast"]

/-- One data row of the export: the record's attributes in field order, with
booleans rendered `Ja`/`Nee` and nulls rendered empty (timestamps render via
`toString`). -/
def recordRow (r : RSVPRec) : List String :=
  [r.rsvp_code, r.guest_first_name, r.guest_last_name, boolCell r.guest_present,
   boolCell r.guest_present_ceremony, boolCell r.guest_present_reception,
   boolCell r.guest_present_dinner, optStrCell r.guest_email,
   boolCell r.guest_diet_meat, boolCell r.guest_diet_fish, boolCell r.guest_diet_vega,
   boolCell r.with_partner, r.partner_first_name, r.partner_last_name,
   optBoolCell r.partner_diet_meat, optBoolCell r.partner_diet_fish,
   optBoolCell r.partner_diet_vega, r.remarks, toString r.created_at,
   toString r.updated_at]

/-- The ordering of `RSVP.get_all`:
`order_by(cls.guest_first_name, cls.guest_last_name)`. -/
def RSVPOrder (a b : RSVPRec) : Prop :=
  a.guest_first_name < b.guest_first_name ∨
    (a.guest_first_name = b.guest_first_name ∧ a.guest_last_name ≤ b.guest_last_name)

instance : DecidableRel RSVPOrder := fun a b => by
  unfold RSVPOrder; infer_instance

instance : IsTotal RSVPRec RSVPOrder where
  total a b := by
    unfold RSVPOrder
    rcases lt_trichotomy a.guest_first_name b.guest_first_name with h | h | h
    · exact Or.inl (Or.inl h)
    · rcases le_total a.guest_last_name b.guest_last_name with h2 | h2
      · exact Or.inl (Or.inr ⟨h, h2⟩)
      · exact Or.inr (Or.inr ⟨h.symm, h2⟩)
    · exact Or.inr (Or.inl h)

instance : IsTrans RSVPRec RSVPOrder where
  trans a b c hab hbc := by
    unfold RSVPOrder at *
    rcases hab with h1 | ⟨h1, h1'⟩
    · rcases hbc with h2 | ⟨h2, _⟩
      · exact Or.inl (h1.trans h2)
      · exact Or.inl (h2 ▸ h1)
    · rcases hbc with h2 | ⟨h2, h2'⟩
      · exact Or.inl (h1 ▸ h2)
      · exact Or.inr ⟨h1.trans h2, h1'.trans h2'⟩

/-- `RSVP.get_all`: all persisted records, ordered by guest first name then
guest last name (the database sort is modelled as an insertion sort by that
key). -/
def get_all (store : List RSVPRec) : List RSVPRec :=
  store.insertionSort RSVPOrder

/-- `export_rsvps_as_csv`: one header row of human-readable Dutch labels,
then one row per record returned by `RSVP.get_all`, each rendered by
`recordRow`.  The CSV line serialization itself is the external `csv`
module; rows are modelled as lists of cells. -/
def export_rsvps_as_csv (store : List RSVPRec) : List (List String) :=
  headerRow :: (get_all store).map recordRow

/-! ## Timestamp lifecycle (`database.py`: `created_at`, `updated_at`,
`from_column`) -/

/-- One mutation event on a record: the update payload applied by
`manage_rsvp`, followed by the `onupdate` stamp of `updated_at` at commit
time. -/
def apply_update (now : Nat) (fi : FormInput) (r : RSVPRec) : RSVPRec :=
  onupdate_updated_at now (populate_obj r.with_partner fi r)

/-- A record's life: inserted once, then a fold of update events (each a
payload together with its commit time). -/
def run_updates (r : RSVPRec) (events : List (Nat × FormInput)) : RSVPRec :=
  events.foldl (fun acc e => apply_update e.1 e.2 acc) r

/-! ## Theorems on the create workflow -/

/-- C2: for every create submission that validates, if the final
`guest_present` is true and the confirmation notification raises, the
just-created record is deleted, the deletion committed and the exception
re-raised, so the store after the request equals the store before it; if the
notification succeeds or `guest_present` is false, the created record stays
committed and the caller is redirected to the management view for the
assigned code. -/
lemma create_instance_guest_present (with_partner : Bool) (fi : FormInput)
    (freshId : Nat) (freshCode : String) (now : Nat) :
    (create_instance with_partner fi freshId freshCode now).guest_present =
      fi.guest_present := by
  simp [create_instance, populate_obj]

lemma create_instance_id (with_partner : Bool) (fi : FormInput)
    (freshId : Nat) (freshCode : String) (now : Nat) :
    (create_instance with_partner fi freshId freshCode now).id = freshId := by
  simp [create_instance, populate_obj, RSVP_new]

lemma create_instance_rsvp_code (with_partner : Bool) (fi : FormInput)
    (freshId : Nat) (freshCode : String) (now : Nat) :
    (create_instance with_partner fi freshId freshCode now).rsvp_code = freshCode := by
  simp [create_instance, populate_obj, RSVP_new]

theorem C2_create_email_rollback
    (with_partner : Bool) (existsEmail emailFormatOk : String → Bool) (fi : FormInput)
    (store : List RSVPRec) (freshId : Nat) (freshCode : String) (now : Nat) (emailOk : Bool)
    (hfresh : ∀ r ∈ store, r.id ≠ freshId)
    (hvalid : validateForm with_partner existsEmail emailFormatOk none fi = []) :
    (fi.guest_present = true → emailOk = false →
      register_rsvp true with_partner existsEmail emailFormatOk fi store freshId freshCode
          now emailOk = ViewResult.serverError store) ∧
      (fi.guest_present = false ∨ emailOk = true →
        register_rsvp true with_partner existsEmail emailFormatOk fi store freshId freshCode
            now emailOk =
          ViewResult.redirect
            (store ++ [create_instance with_partner fi freshId freshCode now])
            freshCode) := by
  constructor
  · intro hpres hfail
    subst hfail
    rw [register_rsvp]
    rw [hvalid]
    simp only [List.isEmpty_nil, Bool.and_true, if_true,
      create_instance_guest_present, hpres, Bool.false_eq_true, if_false]
    rw [List.filter_append]
    have h1 : List.filter
        (fun r => r.id != (create_instance with_partner fi freshId freshCode now).id)
        store = store := by
      rw [List.filter_eq_self]
      intro a ha
      rw [create_instance_id]
      simpa using hfresh a ha
    have h2 : List.filter
        (fun r => r.id != (create_instance with_partner fi freshId freshCode now).id)
        [create_instance with_partner fi freshId freshCode now] = [] := by
      simp
    rw [h1, h2, List.append_nil]
  · intro hcase
    rw [register_rsvp, hvalid]
    simp only [List.isEmpty_nil, Bool.and_true, if_true]
    rcases hcase with hnp | hok
    · simp only [create_instance_guest_present, hnp, Bool.false_eq_true, if_false,
        create_instance_rsvp_code]
    · subst hok
      split <;> simp [create_instance_rsvp_code]

/-- A concrete valid submission, used to instantiate witnesses. -/
def fiValid : FormInput :=
  { guest_first_name := "Jan"
    guest_last_name := "Jansen"
    guest_present := true
    guest_present_ceremony := true
    guest_present_reception := true
    guest_present_dinner := true
    guest_email := "jan@example.com"
    guest_diet_meat := true
    guest_diet_fish := false
    guest_diet_vega := false
    partner_first_name := "Piet"
    partner_last_name := "Jansen"
    partner_diet_meat := true
    partner_diet_fish := false
    partner_diet_vega := false
    remarks := "" }

/-- Witness for C2 at a concrete input: an empty store, the valid submission
`fiValid` and a failing notification. -/
theorem C2_create_email_rollback_witness :
    (∀ r ∈ ([] : List RSVPRec), r.id ≠ 1) ∧
      validateForm false (fun _ => false) (fun _ => true) none fiValid = [] ∧
      ((fiValid.guest_present = true → false = false →
          register_rsvp true false (fun _ => false) (fun _ => true) fiValid [] 1 "ABCD" 0
              false = ViewResult.serverError []) ∧
        (fiValid.guest_present = false ∨ false = true →
          register_rsvp true false (fun _ => false) (fun _ => true) fiValid [] 1 "ABCD" 0
              false =
            ViewResult.redirect ([] ++ [create_instance false fiValid 1 "ABCD" 0]) "ABCD")) :=
  ⟨by simp, by decide,
    C2_create_email_rollback false (fun _ => false) (fun _ => true) fiValid [] 1 "ABCD" 0
      false (by simp) (by decide)⟩

/-! ## Membership lemmas for the validation error lists -/

lemma mem_requiredAndLength_field {p : String × String} {f raw : String} {m : Nat}
    (h : p ∈ requiredAndLength f raw m) : p.1 = f := by
  unfold requiredAndLength at h
  split_ifs at h <;> simp_all

lemma mem_requiredIfPresentAndLength_field {p : String × String} {gp : Bool}
    {f raw : String} {m : Nat}
    (h : p ∈ requiredIfPresentAndLength gp f raw m) : p.1 = f := by
  unfold requiredIfPresentAndLength at h
  split_ifs at h
  · exact mem_requiredAndLength_field h
  all_goals simp_all

lemma mem_optionalLength_field {p : String × String} {f raw : String} {m : Nat}
    (h : p ∈ optionalLength f raw m) : p.1 = f := by
  unfold optionalLength at h
  split_ifs at h <;> simp_all

lemma mem_validate_guest_present_dinner {p : String × String} {fi : FormInput}
    (h : p ∈ validate_guest_present_dinner fi) :
    p = ("guest_present_dinner", programItemMsg) := by
  simp only [validate_guest_present_dinner] at h
  split_ifs at h <;> simp_all

lemma mem_validate_guest_diet_vega {p : String × String} {fi : FormInput}
    (h : p ∈ validate_guest_diet_vega fi) : p = ("guest_diet_vega", dietMsg) := by
  simp only [validate_guest_diet_vega] at h
  split_ifs at h <;> simp_all

lemma mem_validate_partner_diet_vega {p : String × String} {fi : FormInput}
    (h : p ∈ validate_partner_diet_vega fi) : p = ("partner_diet_vega", dietMsg) := by
  simp only [validate_partner_diet_vega] at h
  split_ifs at h <;> simp_all

lemma mem_validate_guest_email_eq {p : String × String} {existsEmail : String → Bool}
    {objEmail data : Option String}
    (h : p ∈ validate_guest_email existsEmail objEmail data) :
    p = ("guest_email", uniqueEmailMsg) := by
  rcases data with _ | e
  · simp [validate_guest_email] at h
  · simp only [validate_guest_email] at h
    split_ifs at h <;> simp_all

lemma mem_guest_email_chain_rest_field {p : String × String}
    {existsEmail emailFormatOk : String → Bool}
    {objEmail data : Option String}
    (h : p ∈ guest_email_chain_rest existsEmail emailFormatOk objEmail data) :
    p.1 = "guest_email" := by
  rcases List.mem_append.mp h with h2 | h2
  · rcases data with _ | e
    · simp at h2
    · simp only [] at h2
      rcases List.mem_append.mp h2 with h3 | h3 <;> split_ifs at h3 <;> simp_all
  · rw [mem_validate_guest_email_eq h2]

lemma mem_guest_email_errors_field {p : String × String}
    {existsEmail emailFormatOk : String → Bool} {gp : Bool}
    {objEmail : Option String} {raw : String}
    (h : p ∈ guest_email_errors existsEmail emailFormatOk gp objEmail raw) :
    p.1 = "guest_email" := by
  simp only [guest_email_errors] at h
  split_ifs at h
  · simp_all
  · exact mem_guest_email_chain_rest_field h
  · simp_all
  · exact mem_guest_email_chain_rest_field h

/-! ## Theorems on the validation rules -/

/-- C3: whenever `guest_present` is true and all three sub-event flags are
false, validation fails with the "must attend at least one part" error
attached to the `guest_present_dinner` field, and neither the create view
nor the manage view persists or modifies anything: both re-render over an
unchanged store. -/
theorem C3_at_least_one_program_item
    (with_partner formEnabled : Bool) (existsEmail emailFormatOk : String → Bool)
    (objEmail : Option String) (fi : FormInput)
    (store : List RSVPRec) (freshId : Nat) (freshCode : String) (now : Nat)
    (emailOk : Bool) (r : RSVPRec)
    (hpres : fi.guest_present = true)
    (hcer : fi.guest_present_ceremony = false)
    (hrec : fi.guest_present_reception = false)
    (hdin : fi.guest_present_dinner = false) :
    ("guest_present_dinner", programItemMsg) ∈
        validateForm with_partner existsEmail emailFormatOk objEmail fi ∧
      register_rsvp formEnabled with_partner existsEmail emailFormatOk fi store freshId
          freshCode now emailOk = ViewResult.render store ∧
      manage_rsvp formEnabled existsEmail emailFormatOk fi store r now =
        ViewResult.render store := by
  have herr : validate_guest_present_dinner fi =
      [("guest_present_dinner", programItemMsg)] := by
    simp [validate_guest_present_dinner, hpres, hcer, hrec, hdin]
  have hmem : ∀ (wp : Bool) (oe : Option String),
      ("guest_present_dinner", programItemMsg) ∈
        validateForm wp existsEmail emailFormatOk oe fi := by
    intro wp oe
    simp [validateForm, herr, List.mem_append]
  have hne : ∀ (wp : Bool) (oe : Option String),
      (validateForm wp existsEmail emailFormatOk oe fi).isEmpty = false := by
    intro wp oe
    have h1 : validateForm wp existsEmail emailFormatOk oe fi ≠ [] :=
      List.ne_nil_of_mem (hmem wp oe)
    simpa [List.isEmpty_iff] using h1
  refine ⟨hmem with_partner objEmail, ?_, ?_⟩
  · rw [register_rsvp]
    simp [hne with_partner none]
  · rw [manage_rsvp]
    simp [hne r.with_partner r.guest_email]

/-- `fiValid` with all three sub-event flags turned off (still claiming to be
present), used to instantiate the C3 witness. -/
def fiNoProgram : FormInput :=
  { fiValid with
    guest_present_ceremony := false
    guest_present_reception := false
    guest_present_dinner := false }

/-- Witness for C3 at a concrete input: `fiNoProgram` against an empty
store. -/
theorem C3_at_least_one_program_item_witness :
    (fiNoProgram.guest_present = true ∧ fiNoProgram.guest_present_ceremony = false ∧
        fiNoProgram.guest_present_reception = false ∧
        fiNoProgram.guest_present_dinner = false) ∧
      ("guest_present_dinner", programItemMsg) ∈
          validateForm false (fun _ => false) (fun _ => true) none fiNoProgram ∧
        register_rsvp true false (fun _ => false) (fun _ => true) fiNoProgram
            [] 1 "ABCD" 0 true = ViewResult.render [] ∧
        manage_rsvp true (fun _ => false) (fun _ => true) fiNoProgram
            [] (RSVP_new 1 "ABCD" 0) 0 = ViewResult.render [] :=
  ⟨⟨by decide, by decide, by decide, by decide⟩,
    C3_at_least_one_program_item false true (fun _ => false) (fun _ => true) none
      fiNoProgram [] 1 "ABCD" 0 true (RSVP_new 1 "ABCD" 0)
      (by decide) (by decide) (by decide) (by decide)⟩

/-- C4: whenever `guest_present_dinner` is true and all three guest diet
flags are false, validation fails with the "must choose a diet option" error
on the `guest_diet_vega` field (whatever the partner mode); when
`with_partner` is true the same rule applies to the partner diet flags via
the `partner_diet_vega` field; and when `with_partner` is false the partner
diet rule is never applied. -/
theorem C4_at_least_one_diet
    (existsEmail emailFormatOk : String → Bool) (objEmail : Option String)
    (fi : FormInput) :
    (∀ with_partner : Bool, fi.guest_present_dinner = true →
        fi.guest_diet_meat = false → fi.guest_diet_fish = false →
        fi.guest_diet_vega = false →
        ("guest_diet_vega", dietMsg) ∈
          validateForm with_partner existsEmail emailFormatOk objEmail fi) ∧
      (fi.guest_present_dinner = true → fi.partner_diet_meat = false →
        fi.partner_diet_fish = false → fi.partner_diet_vega = false →
        ("partner_diet_vega", dietMsg) ∈
          validateForm true existsEmail emailFormatOk objEmail fi) ∧
      ("partner_diet_vega", dietMsg) ∉
        validateForm false existsEmail emailFormatOk objEmail fi := by
  refine ⟨?_, ?_, ?_⟩
  · intro wp hdin hm hf hv
    have herr : validate_guest_diet_vega fi = [("guest_diet_vega", dietMsg)] := by
      simp [validate_guest_diet_vega, hdin, hm, hf, hv]
    simp [validateForm, herr, List.mem_append]
  · intro hdin hm hf hv
    have herr : validate_partner_diet_vega fi = [("partner_diet_vega", dietMsg)] := by
      simp [validate_partner_diet_vega, hdin, hm, hf, hv]
    simp [validateForm, herr, List.mem_append]
  · intro h
    simp only [validateForm, Bool.false_eq_true, if_false, List.nil_append,
      List.append_nil, List.mem_append] at h
    rcases h with ((((h | h) | h) | h) | h) | h
    · exact absurd (mem_requiredAndLength_field h) (by decide)
    · exact absurd (mem_requiredAndLength_field h) (by decide)
    · exact absurd (mem_validate_guest_present_dinner h) (by decide)
    · exact absurd (mem_guest_email_errors_field h) (by decide)
    · exact absurd (mem_validate_guest_diet_vega h) (by decide)
    · exact absurd (mem_optionalLength_field h) (by decide)

/-- `fiValid` with every diet flag (guest and partner) turned off, used to
instantiate the C4 witness. -/
def fiNoDiet : FormInput :=
  { fiValid with
    guest_diet_meat := false
    guest_diet_fish := false
    guest_diet_vega := false
    partner_diet_meat := false
    partner_diet_fish := false
    partner_diet_vega := false }

/-- Witness for C4 at a concrete input: `fiNoDiet`, which attends the dinner
and selects no diet option for either guest or partner. -/
theorem C4_at_least_one_diet_witness :
    (fiNoDiet.guest_present_dinner = true ∧ fiNoDiet.guest_diet_meat = false ∧
        fiNoDiet.guest_diet_fish = false ∧ fiNoDiet.guest_diet_vega = false ∧
        fiNoDiet.partner_diet_meat = false ∧ fiNoDiet.partner_diet_fish = false ∧
        fiNoDiet.partner_diet_vega = false) ∧
      ("guest_diet_vega", dietMsg) ∈
          validateForm false (fun _ => false) (fun _ => true) none fiNoDiet ∧
        ("partner_diet_vega", dietMsg) ∈
          validateForm true (fun _ => false) (fun _ => true) none fiNoDiet ∧
        ("partner_diet_vega", dietMsg) ∉
          validateForm false (fun _ => false) (fun _ => true) none fiNoDiet :=
  ⟨⟨by decide, by decide, by decide, by decide, by decide, by decide, by decide⟩,
    (C4_at_least_one_diet (fun _ => false) (fun _ => true) none fiNoDiet).1 false
      (by decide) (by decide) (by decide) (by decide),
    (C4_at_least_one_diet (fun _ => false) (fun _ => true) none fiNoDiet).2.1
      (by decide) (by decide) (by decide) (by decide),
    (C4_at_least_one_diet (fun _ => false) (fun _ => true) none fiNoDiet).2.2⟩

lemma uniqueEmail_mem_chain_rest {existsEmail emailFormatOk : String → Bool}
    {objEmail data : Option String}
    (h : ("guest_email", uniqueEmailMsg) ∈
      guest_email_chain_rest existsEmail emailFormatOk objEmail data) :
    ("guest_email", uniqueEmailMsg) ∈ validate_guest_email existsEmail objEmail data := by
  simp only [guest_email_chain_rest, List.mem_append] at h
  rcases h with h | h
  · exfalso
    rcases data with _ | e
    · simp at h
    · simp only [] at h
      rcases List.mem_append.mp h with h2 | h2 <;> split_ifs at h2 <;>
        simp_all [uniqueEmailMsg, lengthMsg, emailFormatMsg]
  · exact h

lemma uniqueEmail_mem_validateForm {wp : Bool}
    {existsEmail emailFormatOk : String → Bool} {objEmail : Option String}
    {fi : FormInput}
    (h : ("guest_email", uniqueEmailMsg) ∈
      validateForm wp existsEmail emailFormatOk objEmail fi) :
    ("guest_email", uniqueEmailMsg) ∈
      validate_guest_email existsEmail objEmail (normalizeEmail fi.guest_email) := by
  simp only [validateForm, List.mem_append] at h
  rcases h with (((((h | h) | h) | h) | h) | h) | h
  · exact absurd (mem_requiredAndLength_field h) (by decide)
  · exact absurd (mem_requiredAndLength_field h) (by decide)
  · exact absurd (mem_validate_guest_present_dinner h) (by decide)
  · simp only [guest_email_errors] at h
    split_ifs at h
    · exact absurd (by simpa using h) (by decide)
    · exact uniqueEmail_mem_chain_rest h
    · simp at h
    · exact uniqueEmail_mem_chain_rest h
  · exact absurd (mem_validate_guest_diet_vega h) (by decide)
  · rcases Bool.eq_false_or_eq_true wp with hwp | hwp <;> rw [hwp] at h <;> simp at h
    rcases h with h | h | h
    · exact absurd (mem_requiredIfPresentAndLength_field h) (by decide)
    · exact absurd (mem_requiredIfPresentAndLength_field h) (by decide)
    · exact absurd (mem_validate_partner_diet_vega h) (by decide)
  · exact absurd (mem_optionalLength_field h) (by decide)

/-- C5: on an edit form for record `r` (so the `guest_email` field's
`object_data` is `r.guest_email`), if the normalized submitted email equals
the stored email the uniqueness check is skipped and produces no error; if
the normalized submitted email is a value different from the stored one that
belongs to some other existing record (oracle `existsEmail`), validation
fails with the uniqueness error on the `guest_email` field. -/
theorem C5_email_uniqueness_on_edit
    (with_partner : Bool) (existsEmail emailFormatOk : String → Bool)
    (fi : FormInput) (r : RSVPRec) :
    (normalizeEmail fi.guest_email = r.guest_email →
        ("guest_email", uniqueEmailMsg) ∉
          validateForm with_partner existsEmail emailFormatOk r.guest_email fi) ∧
      ∀ e, normalizeEmail fi.guest_email = some e → r.guest_email ≠ some e →
        existsEmail e = true →
        ("guest_email", uniqueEmailMsg) ∈
          validateForm with_partner existsEmail emailFormatOk r.guest_email fi := by
  constructor
  · intro heq h
    have h2 := uniqueEmail_mem_validateForm h
    rw [heq] at h2
    rcases hoe : r.guest_email with _ | e <;> rw [hoe] at h2 <;>
      simp [validate_guest_email] at h2
  · intro e he hne hex
    have hchain : ("guest_email", uniqueEmailMsg) ∈
        guest_email_chain_rest existsEmail emailFormatOk r.guest_email
          (normalizeEmail fi.guest_email) := by
      rw [he]
      simp only [guest_email_chain_rest, validate_guest_email]
      refine List.mem_append.mpr (Or.inr ?_)
      rw [if_pos ⟨Ne.symm hne, hex⟩]
      exact List.mem_singleton.mpr rfl
    have hmem : ("guest_email", uniqueEmailMsg) ∈
        guest_email_errors existsEmail emailFormatOk fi.guest_present
          r.guest_email fi.guest_email := by
      have hstrip : ¬(py_strip fi.guest_email = "") := by
        intro h0
        rw [normalizeEmail, strip_value, h0] at he
        simp [value_or_none, lower] at he
      have hraw : ¬(fi.guest_email = "") := by
        intro h0
        apply hstrip
        rw [h0]
        decide
      rw [guest_email_errors]
      rcases Bool.eq_false_or_eq_true fi.guest_present with hgp | hgp <;> rw [hgp]
      · rw [if_pos rfl, if_neg hraw]
        exact hchain
      · rw [if_neg Bool.false_ne_true, if_neg hstrip]
        exact hchain
    simp only [validateForm, List.mem_append]
    exact Or.inl (Or.inl (Or.inl (Or.inr hmem)))

/-- A persisted record holding the email `jan@example.com`, used for the C5
witness. -/
def rJan : RSVPRec :=
  { RSVP_new 1 "ABCD" 0 with guest_email := some "jan@example.com" }

/-- Witness for C5 at concrete inputs: resubmitting `jan@example.com` on the
record that already stores it raises no uniqueness error, while submitting
it on a record storing no email, when another record owns it, does. -/
theorem C5_email_uniqueness_on_edit_witness :
    (normalizeEmail fiValid.guest_email = rJan.guest_email ∧
        ("guest_email", uniqueEmailMsg) ∉
          validateForm false (fun s => decide (s = "jan@example.com")) (fun _ => true)
            rJan.guest_email fiValid) ∧
      normalizeEmail fiValid.guest_email = some "jan@example.com" ∧
        (RSVP_new 2 "EFGH" 0).guest_email ≠ some "jan@example.com" ∧
        decide ("jan@example.com" = "jan@example.com") = true ∧
        ("guest_email", uniqueEmailMsg) ∈
          validateForm false (fun s => decide (s = "jan@example.com")) (fun _ => true)
            (RSVP_new 2 "EFGH" 0).guest_email fiValid :=
  ⟨⟨by decide,
      (C5_email_uniqueness_on_edit false (fun s => decide (s = "jan@example.com"))
          (fun _ => true) fiValid rJan).1 (by decide)⟩,
    by decide, by decide, by decide,
    (C5_email_uniqueness_on_edit false (fun s => decide (s = "jan@example.com"))
        (fun _ => true) fiValid (RSVP_new 2 "EFGH" 0)).2 "jan@example.com"
      (by decide) (by decide) (by decide)⟩

/-- C6: when `with_partner` is false the partner fields are neither required
nor validated — every validation error concerns a guest field or the remarks
field — and the record created by the view keeps every partner column at its
default (empty string names, null diet flags), whatever partner data the
submission carried. -/
theorem C6_partner_fields_defaulted
    (fi : FormInput) (freshId : Nat) (freshCode : String) (now : Nat) :
    ((create_instance false fi freshId freshCode now).partner_first_name = "" ∧
        (create_instance false fi freshId freshCode now).partner_last_name = "" ∧
        (create_instance false fi freshId freshCode now).partner_diet_meat = none ∧
        (create_instance false fi freshId freshCode now).partner_diet_fish = none ∧
        (create_instance false fi freshId freshCode now).partner_diet_vega = none) ∧
      ∀ (existsEmail emailFormatOk : String → Bool) (objEmail : Option String)
        (p : String × String),
        p ∈ validateForm false existsEmail emailFormatOk objEmail fi →
        p.1 = "guest_first_name" ∨ p.1 = "guest_last_name" ∨
          p.1 = "guest_present_dinner" ∨ p.1 = "guest_email" ∨
          p.1 = "guest_diet_vega" ∨ p.1 = "remarks" := by
  constructor
  · refine ⟨?_, ?_, ?_, ?_, ?_⟩ <;> simp [create_instance, populate_obj, RSVP_new]
  · intro ee efo oe p h
    simp only [validateForm, Bool.false_eq_true, if_false, List.append_nil,
      List.nil_append, List.mem_append] at h
    rcases h with ((((h | h) | h) | h) | h) | h
    · exact Or.inl (mem_requiredAndLength_field h)
    · exact Or.inr (Or.inl (mem_requiredAndLength_field h))
    · exact Or.inr (Or.inr (Or.inl (by rw [mem_validate_guest_present_dinner h])))
    · exact Or.inr (Or.inr (Or.inr (Or.inl (mem_guest_email_errors_field h))))
    · exact Or.inr (Or.inr (Or.inr (Or.inr
        (Or.inl (by rw [mem_validate_guest_diet_vega h])))))
    · exact Or.inr (Or.inr (Or.inr (Or.inr (Or.inr (mem_optionalLength_field h)))))

/-- `fiValid` with the guest first name blanked, so that validation produces
an error while partner data is still present in the submission. -/
def fiNoFirstName : FormInput := { fiValid with guest_first_name := "" }

/-- Witness for C6 at a concrete input: a no-partner submission that still
carries partner data, and a concrete validation error of `fiNoFirstName`. -/
theorem C6_partner_fields_defaulted_witness :
    ((create_instance false fiValid 1 "ABCD" 0).partner_first_name = "" ∧
        (create_instance false fiValid 1 "ABCD" 0).partner_last_name = "" ∧
        (create_instance false fiValid 1 "ABCD" 0).partner_diet_meat = none ∧
        (create_instance false fiValid 1 "ABCD" 0).partner_diet_fish = none ∧
        (create_instance false fiValid 1 "ABCD" 0).partner_diet_vega = none) ∧
      ("guest_first_name", requiredMsg) ∈
          validateForm false (fun _ => false) (fun _ => true) none fiNoFirstName ∧
        (("guest_first_name", requiredMsg).1 = "guest_first_name" ∨
          ("guest_first_name", requiredMsg).1 = "guest_last_name" ∨
          ("guest_first_name", requiredMsg).1 = "guest_present_dinner" ∨
          ("guest_first_name", requiredMsg).1 = "guest_email" ∨
          ("guest_first_name", requiredMsg).1 = "guest_diet_vega" ∨
          ("guest_first_name", requiredMsg).1 = "remarks") :=
  ⟨(C6_partner_fields_defaulted fiValid 1 "ABCD" 0).1,
    by decide,
    (C6_partner_fields_defaulted fiNoFirstName 1 "ABCD" 0).2 (fun _ => false)
      (fun _ => true) none ("guest_first_name", requiredMsg) (by decide)⟩

/-- C7: the form is enabled exactly when the requester is the administrator
or the deadline has not passed, where the per-request `deadline_passed` flag
is `today ≥ deadline` for the configured deadline.  Strictly before the
deadline the form is enabled for everyone; from the deadline on it is
enabled exactly for the administrator; and with the form disabled both views
perform no validation or persistence — they re-render over an unchanged
store. -/
theorem C7_deadline_gate (isAdmin : Bool) (today deadline : Nat) :
    (form_enabled isAdmin (build_request_context today (some deadline)) = true ↔
        (isAdmin = true ∨ today < deadline)) ∧
      (today < deadline →
        form_enabled isAdmin (build_request_context today (some deadline)) = true) ∧
      (deadline ≤ today →
        form_enabled isAdmin (build_request_context today (some deadline)) = isAdmin) ∧
      ∀ (fe with_partner : Bool) (existsEmail emailFormatOk : String → Bool)
        (fi : FormInput) (store : List RSVPRec) (freshId : Nat) (freshCode : String)
        (now : Nat) (emailOk : Bool) (r : RSVPRec),
        fe = false →
        register_rsvp fe with_partner existsEmail emailFormatOk fi store freshId freshCode
            now emailOk = ViewResult.render store ∧
          manage_rsvp fe existsEmail emailFormatOk fi store r now =
            ViewResult.render store := by
  have hiff : form_enabled isAdmin (build_request_context today (some deadline)) = true ↔
      (isAdmin = true ∨ today < deadline) := by
    simp [form_enabled, build_request_context, Nat.not_le]
  refine ⟨hiff, ?_, ?_, ?_⟩
  · intro h
    exact hiff.mpr (Or.inr h)
  · intro h
    rcases Bool.eq_false_or_eq_true isAdmin with ha | ha <;> rw [ha] <;>
      simp [form_enabled, build_request_context, h]
  · intro fe with_partner ee efo fi store freshId freshCode now emailOk r hfe
    subst hfe
    exact ⟨by simp [register_rsvp], by simp [manage_rsvp]⟩

/-- Witness for C7 at concrete dates: deadline day 10, requests on days 5
and 10, by a guest and by the administrator. -/
theorem C7_deadline_gate_witness :
    ((5 : Nat) < 10 ∧
        form_enabled false (build_request_context 5 (some 10)) = true) ∧
      ((10 : Nat) ≤ 10 ∧
        form_enabled false (build_request_context 10 (some 10)) = false ∧
        form_enabled true (build_request_context 10 (some 10)) = true) ∧
      (false = false ∧
        register_rsvp false false (fun _ => false) (fun _ => true) fiValid [] 1 "ABCD" 0
            true = ViewResult.render [] ∧
          manage_rsvp false (fun _ => false) (fun _ => true) fiValid [] rJan 0 =
            ViewResult.render []) :=
  ⟨⟨by decide, (C7_deadline_gate false 5 10).2.1 (by decide)⟩,
    ⟨by decide, (C7_deadline_gate false 10 10).2.2.1 (by decide),
      (C7_deadline_gate true 10 10).2.2.1 (by decide)⟩,
    ⟨rfl, (C7_deadline_gate false 10 10).2.2.2 false false (fun _ => false) (fun _ => true)
      fiValid [] 1 "ABCD" 0 true rJan rfl⟩⟩

/-- C8: the export is exactly one fixed header row of Dutch labels followed
by one row per persisted record; the data rows are the records ordered by
guest first name then guest last name; and in every data row each boolean
attribute renders as "Ja"/"Nee" while each null attribute renders as the
empty string. -/
theorem C8_export_shape (store : List RSVPRec) :
    export_rsvps_as_csv store = headerRow :: (get_all store).map recordRow ∧
      (export_rsvps_as_csv store).length = store.length + 1 ∧
      (get_all store).Perm store ∧
      List.Sorted RSVPOrder (get_all store) ∧
      ((export_rsvps_as_csv store).tail).Perm (store.map recordRow) ∧
      ∀ r : RSVPRec,
        (recordRow r)[3]? = some (if r.guest_present then "Ja" else "Nee") ∧
        (recordRow r)[4]? = some (if r.guest_present_ceremony then "Ja" else "Nee") ∧
        (recordRow r)[5]? = some (if r.guest_present_reception then "Ja" else "Nee") ∧
        (recordRow r)[6]? = some (if r.guest_present_dinner then "Ja" else "Nee") ∧
        (recordRow r)[8]? = some (if r.guest_diet_meat then "Ja" else "Nee") ∧
        (recordRow r)[9]? = some (if r.guest_diet_fish then "Ja" else "Nee") ∧
        (recordRow r)[10]? = some (if r.guest_diet_vega then "Ja" else "Nee") ∧
        (recordRow r)[11]? = some (if r.with_partner then "Ja" else "Nee") ∧
        (r.guest_email = none → (recordRow r)[7]? = some "") ∧
        (∀ e, r.guest_email = some e → (recordRow r)[7]? = some e) ∧
        (r.partner_diet_meat = none → (recordRow r)[14]? = some "") ∧
        (∀ b, r.partner_diet_meat = some b →
          (recordRow r)[14]? = some (if b then "Ja" else "Nee")) ∧
        (r.partner_diet_fish = none → (recordRow r)[15]? = some "") ∧
        (∀ b, r.partner_diet_fish = some b →
          (recordRow r)[15]? = some (if b then "Ja" else "Nee")) ∧
        (r.partner_diet_vega = none → (recordRow r)[16]? = some "") ∧
        (∀ b, r.partner_diet_vega = some b →
          (recordRow r)[16]? = some (if b then "Ja" else "Nee")) := by
  have hperm : (get_all store).Perm store := List.perm_insertionSort RSVPOrder store
  refine ⟨rfl, ?_, hperm, ?_, ?_, ?_⟩
  · simp [export_rsvps_as_csv, hperm.length_eq]
  · exact List.sorted_insertionSort RSVPOrder store
  · simpa [export_rsvps_as_csv] using hperm.map recordRow
  · intro r
    refine ⟨rfl, rfl, rfl, rfl, rfl, rfl, rfl, rfl, ?_, ?_, ?_, ?_, ?_, ?_, ?_, ?_⟩
    · intro h
      simp [recordRow, optStrCell, h]
    · intro e h
      simp [recordRow, optStrCell, h]
    · intro h
      simp [recordRow, optBoolCell, h]
    · intro b h
      simp [recordRow, optBoolCell, boolCell, h]
    · intro h
      simp [recordRow, optBoolCell, h]
    · intro b h
      simp [recordRow, optBoolCell, boolCell, h]
    · intro h
      simp [recordRow, optBoolCell, h]
    · intro b h
      simp [recordRow, optBoolCell, boolCell, h]

/-- A second persisted record, alphabetically before `rJan`, with no email
and no partner diet values; used in the C8 witness. -/
def rAnn : RSVPRec :=
  { RSVP_new 2 "EFGH" 0 with
    guest_first_name := "Ann"
    guest_last_name := "Smit" }

/-- Witness for C8 at a concrete store of two records given in reverse
alphabetical order. -/
theorem C8_export_shape_witness :
    (get_all [rJan, rAnn]).Perm [rJan, rAnn] ∧
      List.Sorted RSVPOrder (get_all [rJan, rAnn]) ∧
      (rAnn.guest_email = none ∧ (recordRow rAnn)[7]? = some "") ∧
      (rAnn.partner_diet_meat = none ∧ (recordRow rAnn)[14]? = some "") :=
  ⟨(C8_export_shape [rJan, rAnn]).2.2.1,
    (C8_export_shape [rJan, rAnn]).2.2.2.1,
    ⟨rfl, (((C8_export_shape [rJan, rAnn]).2.2.2.2.2 rAnn).2.2.2.2.2.2.2.2.1) rfl⟩,
    ⟨rfl, (((C8_export_shape [rJan, rAnn]).2.2.2.2.2 rAnn).2.2.2.2.2.2.2.2.2.2.1) rfl⟩⟩

/-! ## Theorems on the timestamp lifecycle -/

lemma run_updates_invariant (c : Nat) (events : List (Nat × FormInput)) :
    ∀ r : RSVPRec, r.created_at = c → c ≤ r.updated_at →
      (∀ e ∈ events, c ≤ e.1) →
      (run_updates r events).created_at = c ∧ c ≤ (run_updates r events).updated_at := by
  induction events with
  | nil =>
    intro r h1 h2 _
    exact ⟨h1, h2⟩
  | cons e es ih =>
    intro r h1 h2 hm
    have hc : (apply_update e.1 e.2 r).created_at = c := by
      simp [apply_update, onupdate_updated_at, populate_obj, h1]
    have hu : c ≤ (apply_update e.1 e.2 r).updated_at := by
      simpa [apply_update, onupdate_updated_at] using hm e (List.mem_cons_self e es)
    have := ih (apply_update e.1 e.2 r) hc hu
      (fun x hx => hm x (List.mem_cons_of_mem e hx))
    simpa [run_updates, List.foldl_cons] using this

/-- C9: a freshly inserted record has `updated_at` equal to `created_at`
(the `from_column(created_at)` default); every mutation stamps `updated_at`
with the commit time and leaves `created_at` untouched; hence after any
sequence of updates whose commit times do not precede the insert time (a
monotone clock), `created_at` is still the insert time and
`updated_at ≥ created_at`. -/
theorem C9_timestamps (with_partner : Bool) (fi0 : FormInput) (freshId : Nat)
    (freshCode : String) (t0 : Nat) (events : List (Nat × FormInput))
    (hmono : ∀ e ∈ events, t0 ≤ e.1) :
    ((create_instance with_partner fi0 freshId freshCode t0).created_at = t0 ∧
        (create_instance with_partner fi0 freshId freshCode t0).updated_at =
          (create_instance with_partner fi0 freshId freshCode t0).created_at) ∧
      (run_updates (create_instance with_partner fi0 freshId freshCode t0)
          events).created_at = t0 ∧
      (run_updates (create_instance with_partner fi0 freshId freshCode t0)
            events).created_at ≤
        (run_updates (create_instance with_partner fi0 freshId freshCode t0)
            events).updated_at ∧
      ∀ (now : Nat) (fi : FormInput) (r : RSVPRec),
        (apply_update now fi r).created_at = r.created_at ∧
          (apply_update now fi r).updated_at = now := by
  have hc0 : (create_instance with_partner fi0 freshId freshCode t0).created_at = t0 := by
    simp [create_instance, populate_obj, RSVP_new]
  have hu0 : (create_instance with_partner fi0 freshId freshCode t0).updated_at = t0 := by
    simp [create_instance, populate_obj, RSVP_new]
  have hinv := run_updates_invariant t0 events
    (create_instance with_partner fi0 freshId freshCode t0) hc0 (le_of_eq hu0.symm) hmono
  refine ⟨⟨hc0, hu0.trans hc0.symm⟩, hinv.1, ?_, ?_⟩
  · rw [hinv.1]
    exact hinv.2
  · intro now fi r
    exact ⟨by simp [apply_update, onupdate_updated_at, populate_obj],
      by simp [apply_update, onupdate_updated_at]⟩

/-- Witness for C9 at a concrete input: insert at time 1, updates at times 3
and 7. -/
theorem C9_timestamps_witness :
    (∀ e ∈ ([(3, fiValid), (7, fiValid)] : List (Nat × FormInput)), 1 ≤ e.1) ∧
      ((create_instance false fiValid 1 "ABCD" 1).created_at = 1 ∧
        (run_updates (create_instance false fiValid 1 "ABCD" 1)
            [(3, fiValid), (7, fiValid)]).created_at = 1 ∧
        (run_updates (create_instance false fiValid 1 "ABCD" 1)
              [(3, fiValid), (7, fiValid)]).created_at ≤
          (run_updates (create_instance false fiValid 1 "ABCD" 1)
              [(3, fiValid), (7, fiValid)]).updated_at) :=
  ⟨by decide,
    (C9_timestamps false fiValid 1 "ABCD" 1 [(3, fiValid), (7, fiValid)] (by decide)).1.1,
    (C9_timestamps false fiValid 1 "ABCD" 1 [(3, fiValid), (7, fiValid)] (by decide)).2.1,
    (C9_timestamps false fiValid 1 "ABCD" 1 [(3, fiValid), (7, fiValid)] (by decide)).2.2.1⟩

/-- C10: applying the update payload (`form.populate_obj`) to an existing
record never touches `id`, `rsvp_code`, `with_partner`, `created_at` or
`updated_at` (the form carries no fields for them); when the record was
registered without a partner the five partner columns are untouched as well;
and a successful update through the management view redirects to the
record's own code, replaces only the record with the same `id`, and the
replacement agrees with the original on `id`, `rsvp_code`, `with_partner`
and `created_at`. -/
theorem C10_update_frame (fi : FormInput) (r : RSVPRec) :
    (∀ wp : Bool, (populate_obj wp fi r).id = r.id ∧
        (populate_obj wp fi r).rsvp_code = r.rsvp_code ∧
        (populate_obj wp fi r).with_partner = r.with_partner ∧
        (populate_obj wp fi r).created_at = r.created_at ∧
        (populate_obj wp fi r).updated_at = r.updated_at) ∧
      ((populate_obj false fi r).partner_first_name = r.partner_first_name ∧
        (populate_obj false fi r).partner_last_name = r.partner_last_name ∧
        (populate_obj false fi r).partner_diet_meat = r.partner_diet_meat ∧
        (populate_obj false fi r).partner_diet_fish = r.partner_diet_fish ∧
        (populate_obj false fi r).partner_diet_vega = r.partner_diet_vega) ∧
      ∀ (formEnabled : Bool) (existsEmail emailFormatOk : String → Bool)
        (store store2 : List RSVPRec) (now : Nat) (code2 : String),
        manage_rsvp formEnabled existsEmail emailFormatOk fi store r now =
          ViewResult.redirect store2 code2 →
        code2 = r.rsvp_code ∧
          store2 = store.map (fun x => if x.id = r.id then
            onupdate_updated_at now (populate_obj r.with_partner fi r) else x) ∧
          (onupdate_updated_at now (populate_obj r.with_partner fi r)).id = r.id ∧
          (onupdate_updated_at now (populate_obj r.with_partner fi r)).rsvp_code =
            r.rsvp_code ∧
          (onupdate_updated_at now (populate_obj r.with_partner fi r)).with_partner =
            r.with_partner ∧
          (onupdate_updated_at now (populate_obj r.with_partner fi r)).created_at =
            r.created_at := by
  refine ⟨?_, ?_, ?_⟩
  · intro wp
    refine ⟨?_, ?_, ?_, ?_, ?_⟩ <;> simp [populate_obj]
  · refine ⟨?_, ?_, ?_, ?_, ?_⟩ <;> simp [populate_obj]
  · intro fe ee efo store store2 now code2 h
    simp only [manage_rsvp] at h
    split_ifs at h with hc
    · rw [ViewResult.redirect.injEq] at h
      have hid : (onupdate_updated_at now (populate_obj r.with_partner fi r)).id =
          r.id := by
        simp [onupdate_updated_at, populate_obj]
      have hcode :
          (onupdate_updated_at now (populate_obj r.with_partner fi r)).rsvp_code =
            r.rsvp_code := by
        simp [onupdate_updated_at, populate_obj]
      have hwp :
          (onupdate_updated_at now (populate_obj r.with_partner fi r)).with_partner =
            r.with_partner := by
        simp [onupdate_updated_at, populate_obj]
      have hca :
          (onupdate_updated_at now (populate_obj r.with_partner fi r)).created_at =
            r.created_at := by
        simp [onupdate_updated_at, populate_obj]
      exact ⟨h.2.symm.trans hcode, h.1.symm, hid, hcode, hwp, hca⟩

/-- Witness for C10 at a concrete input: a successful edit of `rJan`
resubmitting its own email. -/
theorem C10_update_frame_witness :
    manage_rsvp true (fun s => decide (s = "jan@example.com")) (fun _ => true) fiValid
        [rJan] rJan 7 =
      ViewResult.redirect
        [onupdate_updated_at 7 (populate_obj rJan.with_partner fiValid rJan)] "ABCD" ∧
      ("ABCD" = rJan.rsvp_code ∧
        (onupdate_updated_at 7 (populate_obj rJan.with_partner fiValid rJan)).id =
          rJan.id ∧
        (onupdate_updated_at 7 (populate_obj rJan.with_partner fiValid rJan)).created_at =
          rJan.created_at) :=
  ⟨by decide,
    ((C10_update_frame fiValid rJan).2.2 true (fun s => decide (s = "jan@example.com"))
        (fun _ => true) [rJan]
        [onupdate_updated_at 7 (populate_obj rJan.with_partner fiValid rJan)] 7 "ABCD"
        (by decide)).1,
    ((C10_update_frame fiValid rJan).2.2 true (fun s => decide (s = "jan@example.com"))
        (fun _ => true) [rJan]
        [onupdate_updated_at 7 (populate_obj rJan.with_partner fiValid rJan)] 7 "ABCD"
        (by decide)).2.2.1,
    ((C10_update_frame fiValid rJan).2.2 true (fun s => decide (s = "jan@example.com"))
        (fun _ => true) [rJan]
        [onupdate_updated_at 7 (populate_obj rJan.with_partner fiValid rJan)] 7 "ABCD"
        (by decide)).2.2.2.2.2⟩

end WeddingRSVP
